import Mathlib

/-!
Verification development for the redis-cloud-deployment-automation repository.

The embedding models the two core source files:
* `rest-api/create-db.py` — the provisioning workflow (subscription creation,
  asynchronous task/activation polling, payload normalization, per-database
  creation loop);
* `input/re_stats_json.py` — the sizing-sheet aggregation that expands rows by
  quantity and groups them into a creation plan.

Python dictionaries/JSON values are modelled by the inductive `JVal`; Python
floats are modelled as exact rationals; Python exceptions (`TypeError`,
`ValueError`, `SystemExit`) are modelled by the error type `PyErr` with
`Except`-valued functions.  Stateful polling loops are modelled as explicit
recursions over a response oracle, an elapsed-time sequence, and a fuel bound
(fuel exhaustion is reported as `running`, meaning the real loop would still be
polling).
-/

/- The library marks the arithmetic on `Rat` irreducible; the concrete
witnesses below evaluate rational arithmetic by reduction, so it is restored to
the default reducibility here. -/
set_option allowUnsafeReducibility true in
attribute [semireducible] Rat.mul Rat.add Rat.sub Rat.inv Rat.ofScientific

/-- A JSON value as manipulated by the Python source.  Python distinguishes
`int` from `float`; floats are modelled as exact rationals. -/
inductive JVal where
  | null
  | bool (b : Bool)
  | int (n : Int)
  | num (q : ℚ)
  | str (s : String)
  | arr (elems : List JVal)
  | obj (fields : List (String × JVal))

instance : Inhabited JVal := ⟨JVal.null⟩

/-- Python exceptions that the modelled code can raise. -/
inductive PyErr where
  | typeError
  | valueError
  | systemExit (msg : String)
deriving DecidableEq

/-- First value bound to `key` in an association list (Python dicts have unique
keys, so this is the dict lookup). -/
def lookupField : List (String × JVal) → String → Option JVal
  | [], _ => none
  | (k, v) :: rest, key => if k = key then some v else lookupField rest key

/-- `d.get(k)` — `none` both when the receiver is not a dict and when the key
is absent (callers that would raise `AttributeError` on a non-dict receiver
guard for it explicitly). -/
def dictGet : JVal → String → Option JVal
  | .obj fields, k => lookupField fields k
  | _, _ => none

/-- `d.get(k, default)`: the stored value when the key is present (even when it
is `None`), otherwise the default. -/
def dictGetD (v : JVal) (k : String) (d : JVal) : JVal :=
  (dictGet v k).getD d

/-- Python truthiness of a value. -/
def truthy : JVal → Bool
  | .null => false
  | .bool b => b
  | .int n => !(n == 0)
  | .num q => !(q == 0)
  | .str s => !(s == "")
  | .arr xs => !xs.isEmpty
  | .obj fs => !fs.isEmpty

/-- `x or d`: `x` when truthy, otherwise `d`. -/
def pyOr (v : Option JVal) (d : JVal) : JVal :=
  match v with
  | some w => if truthy w then w else d
  | none => d

/-- `res.get(k₁) or res.get(k₂) or ...`: the first truthy value bound to one of
the keys, in key order. -/
def firstTruthyKey : JVal → List String → Option JVal
  | _, [] => none
  | res, k :: ks =>
    match dictGet res k with
    | some v => if truthy v then some v else firstTruthyKey res ks
    | none => firstTruthyKey res ks

/-- `str(x)` for the scalar values the workflow converts (identifiers are
strings, ints or bools); the container/float renderings below are placeholders
that no theorem in this file depends on. -/
def pyStr : JVal → String
  | .str s => s
  | .int n => toString n
  | .bool b => if b then "True" else "False"
  | .null => "None"
  | .num q => toString q.num ++ "." ++ toString q.den
  | .arr _ => "~list~"
  | .obj _ => "~dict~"

/-- Accumulate decimal digits; fails on a non-digit character. -/
def digitsToNat? (cs : List Char) : Option Nat :=
  cs.foldl
    (fun acc c =>
      match acc with
      | none => none
      | some n => if c.isDigit then some (n * 10 + (c.toNat - 48)) else none)
    (some 0)

/-- `int(s)` on a plain signed decimal numeral (surrounding whitespace and
underscore separators do not occur in the modelled inputs). -/
def parseIntStr (s : String) : Option Int :=
  let cs := s.toList
  let signBody : Bool × List Char :=
    match cs with
    | '-' :: rest => (true, rest)
    | '+' :: rest => (false, rest)
    | _ => (false, cs)
  match signBody with
  | (neg, body) =>
    if body = [] then none
    else
      match digitsToNat? body with
      | some n => some (if neg then -(n : Int) else (n : Int))
      | none => none

/-- `float(s)` on a plain signed decimal numeral with at most one point
(exponent forms, `inf`/`nan` and whitespace do not occur in the modelled
inputs). -/
def parseFloatStr (s : String) : Option ℚ :=
  let cs := s.toList
  let signBody : Bool × List Char :=
    match cs with
    | '-' :: rest => (true, rest)
    | '+' :: rest => (false, rest)
    | _ => (false, cs)
  match signBody with
  | (neg, body) =>
    let intPart := body.takeWhile (fun c => !(c == '.'))
    let dotRest := body.dropWhile (fun c => !(c == '.'))
    let fracPart := dotRest.drop 1
    if fracPart.contains '.' then none
    else if intPart = [] ∧ (dotRest = [] ∨ fracPart = []) then none
    else if dotRest = [] ∧ intPart = [] then none
    else
      match digitsToNat? intPart, digitsToNat? fracPart with
      | some ip, some fp =>
        let mag : ℚ := (ip : ℚ) + (fp : ℚ) / ((10 : ℚ) ^ fracPart.length)
        some (if neg then -mag else mag)
      | _, _ => none

/-- Floor of a rational as an integer (`den` is positive, so Euclidean division
of `num` by `den` is the floor). -/
def ratFloor (q : ℚ) : Int := q.num.ediv (q.den : Int)

/-- Ceiling of a rational as an integer. -/
def ratCeil (q : ℚ) : Int := -ratFloor (-q)

/-- `int(x)` truncation toward zero for a float argument. -/
def ratTrunc (q : ℚ) : Int := if q < 0 then ratCeil q else ratFloor q

/-- `float(x)`: numeric coercion; `none` models the `TypeError`/`ValueError`
raised on inconvertible values. -/
def pyFloat : JVal → Option ℚ
  | .int n => some (n : ℚ)
  | .num q => some q
  | .bool b => some (if b then 1 else 0)
  | .str s => parseFloatStr s
  | _ => none

/-- `int(x)`: coercion to an integer (truncating floats, parsing strings). -/
def pyInt : JVal → Except PyErr Int
  | .int n => .ok n
  | .bool b => .ok (if b then 1 else 0)
  | .num q => .ok (ratTrunc q)
  | .str s =>
    match parseIntStr s with
    | some n => .ok n
    | none => .error .valueError
  | .null => .error .typeError
  | .arr _ => .error .typeError
  | .obj _ => .error .typeError

/-! ### `rest-api/create-db.py`, normalization (lines 156-204) -/

/-- `_to_gb_int` (create-db.py lines 156-161): `max(1, ceil(float(x)))`, with
any conversion failure defaulting to `1`. -/
def _to_gb_int (x : JVal) : Int :=
  match pyFloat x with
  | some v => max 1 (ratCeil v)
  | none => 1

/-- The `modules` selection of `_normalize_db_from_input` (lines 169-171):
`db.get("modules")` is `None` both when the key is absent and when it is bound
to JSON null, and in both cases the misspelled alias `modulexs` is consulted
(defaulting to `[]`). -/
def modulesOf (db : JVal) : JVal :=
  match dictGet db "modules" with
  | some JVal.null => dictGetD db "modulexs" (JVal.arr [])
  | some v => v
  | none => dictGetD db "modulexs" (JVal.arr [])

/-- `_normalize_db_from_input` (lines 163-181): snake_case input to camelCase
PRO payload.  The only field whose conversion can raise is
`throughput_measurement_value` (`int(...)`); all other conversions are total,
so it is sequenced first without changing observable behaviour.  A non-dict
argument raises `AttributeError` at the first `.get` (modelled as
`typeError`). -/
def _normalize_db_from_input (db : JVal) : Except PyErr JVal :=
  match db with
  | .obj _ =>
    match pyInt (dictGetD db "throughput_measurement_value" (.int 100)) with
    | .error e => .error e
    | .ok tv =>
      .ok (.obj
        [("name", dictGetD db "name" (.str "redis-db")),
         ("protocol", dictGetD db "protocol" (.str "redis")),
         ("datasetSizeInGb", .int (_to_gb_int (dictGetD db "dataset_size_in_gb" (.int 1)))),
         ("replication", .bool (truthy (dictGetD db "replication" (.bool false)))),
         ("throughputMeasurementBy",
           dictGetD db "throughput_measurement_by" (.str "operations-per-second")),
         ("throughputMeasurementValue", .int tv),
         ("modules", modulesOf db),
         ("supportOSSClusterApi", .bool (truthy (dictGetD db "support_oss_cluster_api" (.bool false))))])
  | _ => .error .typeError

/-- The `for d in dbs: normed.append(_normalize_db_from_input(d))` loop of
`_dbs_from_payload` (lines 187-188); the first exception aborts. -/
def normalizeList : List JVal → Except PyErr (List JVal)
  | [] => .ok []
  | d :: rest =>
    match _normalize_db_from_input d with
    | .error e => .error e
    | .ok nd =>
      match normalizeList rest with
      | .error e => .error e
      | .ok nrest => .ok (nd :: nrest)

/-- The minimal DB dict synthesized from one `creation_plan` item
(lines 195-203); `i` is the 1-based position from `enumerate(..., start=1)`. -/
def synth_db_input (i : Nat) (item : JVal) : JVal :=
  .obj
    [("name", .str ("redis-db-" ++ toString i)),
     ("dataset_size_in_gb", dictGetD item "dataset_size_in_gb" (.int 1)),
     ("replication", dictGetD item "replication" (.bool false)),
     ("throughput_measurement_by",
       dictGetD item "throughput_measurement_by" (.str "operations-per-second")),
     ("throughput_measurement_value", dictGetD item "throughput_measurement_value" (.int 100)),
     ("modules", .arr []),
     ("support_oss_cluster_api", .bool false)]

/-- The `creation_plan` synthesis loop of `_dbs_from_payload` (lines 193-203).
A non-dict item raises `AttributeError` at `item.get`. -/
def synthLoop : Nat → List JVal → Except PyErr (List JVal)
  | _, [] => .ok []
  | i, item :: rest =>
    match item with
    | .obj _ =>
      match _normalize_db_from_input (synth_db_input i item) with
      | .error e => .error e
      | .ok nd =>
        match synthLoop (i + 1) rest with
        | .error e => .error e
        | .ok nrest => .ok (nd :: nrest)
    | _ => .error .typeError

/-- `_dbs_from_payload` (lines 183-204): normalize the explicit `databases`
list when it is non-empty, otherwise synthesize databases from
`subscription.creation_plan`.  Iterating a truthy non-list raises (modelled as
`typeError`), matching the `for` loops over `dbs`/`creation_plan`. -/
def _dbs_from_payload (spec : JVal) : Except PyErr (List JVal) :=
  match spec with
  | .obj _ =>
    match pyOr (dictGet spec "databases") (.arr []) with
    | .arr (d :: ds) => normalizeList (d :: ds)
    | .arr [] =>
      match pyOr (dictGet spec "subscription") (.obj []) with
      | .obj subFields =>
        match pyOr (lookupField subFields "creation_plan") (.arr []) with
        | .arr items => synthLoop 1 items
        | _ => .error .typeError
      | _ => .error .typeError
    | _ => .error .typeError
  | _ => .error .typeError

/-! ### `rest-api/create-db.py`, subscription payload (lines 207-232) -/

/-- The environment-derived configuration used by
`build_pro_subscription_payload`. -/
structure Config where
  subscriptionName : String
  paymentMethodId : Int
  provider : String
  region : String
  deploymentCidr : String

/-- The literal payload dict of lines 216-231. -/
def build_payload_obj (cfg : Config) (dbs : List JVal) : JVal :=
  .obj
    [("name", .str cfg.subscriptionName),
     ("paymentMethodId", .int cfg.paymentMethodId),
     ("cloudProviders", .arr
       [.obj
         [("provider", .str cfg.provider),
          ("regions", .arr
            [.obj
              [("region", .str cfg.region),
               ("networking", .obj [("deploymentCIDR", .str cfg.deploymentCidr)])]])]]),
     ("databases", .arr dbs)]

/-- `build_pro_subscription_payload` (lines 207-232): fatal `SystemExit` when
no database is specified or derivable, otherwise the PRO payload. -/
def build_pro_subscription_payload (cfg : Config) (spec : JVal) : Except PyErr JVal :=
  match _dbs_from_payload spec with
  | .error e => .error e
  | .ok [] => .error (.systemExit "No databases specified or derivable from creation_plan")
  | .ok dbs => .ok (build_payload_obj cfg dbs)

/-! ### `rest-api/create-db.py`, polling loops (lines 72-123) -/

/-- `s.lower()` (ASCII case folding, character by character). -/
def pyLower (s : String) : String :=
  String.mk (s.toList.map Char.toLower)

/-- `(a or b or ... or "").lower()`: the lowercased first truthy value in the
chain, the empty string when all are falsy, and `AttributeError` (modelled as
`typeError`) when the first truthy value is not a string. -/
def pyOrChainLower : List (Option JVal) → Except PyErr String
  | [] => .ok ""
  | some (JVal.str s) :: rest =>
    if s = "" then pyOrChainLower rest else .ok (pyLower s)
  | some w :: rest =>
    if truthy w then .error .typeError else pyOrChainLower rest
  | none :: rest => pyOrChainLower rest

/-- `(sub.get("status") or sub.get("state") or "").lower()` (line 76). -/
def subStatus (sub : JVal) : Except PyErr String :=
  match sub with
  | .obj _ => pyOrChainLower [dictGet sub "status", dictGet sub "state"]
  | _ => .error .typeError

/-- `(task.get("status") or "").lower()` (line 93). -/
def taskStatus (task : JVal) : Except PyErr String :=
  match task with
  | .obj _ => pyOrChainLower [dictGet task "status"]
  | _ => .error .typeError

/-- Active-equivalent subscription statuses (line 77). -/
def activeStatuses : List String := ["active", "activated", "running", "ready"]

/-- Failure-equivalent subscription statuses (line 79). -/
def subFailureStatuses : List String := ["error", "failed"]

/-- Terminal success statuses of a task (line 96). -/
def taskSuccessStatuses : List String := ["succeeded", "success", "completed", "done"]

/-- Terminal failure statuses of a task (line 101). -/
def taskFailureStatuses : List String :=
  ["failed", "error", "aborted", "canceled", "cancelled", "processing-error"]

/-- Outcome of the subscription-activation polling loop. -/
inductive SubWait where
  | active (sub : JVal)
  | failure (status : String)
  | timedOut (status : String)
  | exn (e : PyErr)
  | running

/-- `wait_for_subscription_active` (lines 72-83).  `responses k` is the body of
the `k`-th `GET /subscriptions/{id}`, `elapsed k` is `time.time() - start` at
the `k`-th timeout check, `tmo` is `timeout_s`, and `fuel` bounds the number of
polls in the model (`running` = the real loop would still be polling). -/
def wait_for_subscription_active (responses : Nat → JVal) (elapsed : Nat → ℚ)
    (tmo : ℚ) : Nat → Nat → SubWait
  | _, 0 => .running
  | k, fuel + 1 =>
    match subStatus (responses k) with
    | .error e => .exn e
    | .ok status =>
      if activeStatuses.contains status then .active (responses k)
      else if subFailureStatuses.contains status then .failure status
      else if tmo < elapsed k then .timedOut status
      else wait_for_subscription_active responses elapsed tmo (k + 1) fuel

/-- Outcome of the task polling loop. -/
inductive TaskWait where
  | done (task : JVal)
  | failed (status : String)
  | timedOut (status : String)
  | exn (e : PyErr)
  | running

/-- `wait_for_task` (lines 85-122), with the same oracle conventions as
`wait_for_subscription_active`. -/
def wait_for_task (responses : Nat → JVal) (elapsed : Nat → ℚ)
    (tmo : ℚ) : Nat → Nat → TaskWait
  | _, 0 => .running
  | k, fuel + 1 =>
    match taskStatus (responses k) with
    | .error e => .exn e
    | .ok status =>
      if taskSuccessStatuses.contains status then .done (responses k)
      else if taskFailureStatuses.contains status then .failed status
      else if tmo < elapsed k then .timedOut status
      else wait_for_task responses elapsed tmo (k + 1) fuel

/-! ### `rest-api/create-db.py`, identifier extraction (lines 125-153) -/

/-- The fixed keypath priority list of lines 126-133. -/
def subIdKeypaths : List (List String) :=
  [["result", "subscriptionId"],
   ["response", "subscriptionId"],
   ["subscriptionId"],
   ["resourceId"],
   ["result", "id"],
   ["response", "id"]]

/-- The inner keypath walk of lines 134-141: each step requires a dict
containing the key. -/
def resolvePath : JVal → List String → Option JVal
  | v, [] => some v
  | .obj fields, k :: ks =>
    match lookupField fields k with
    | some v => resolvePath v ks
    | none => none
  | _, _ :: _ => none

/-- The `isinstance(obj, (str, int))` filter plus `str(obj)` of lines 142-143
(Python `bool` is a subclass of `int`). -/
def strOrIntVal : JVal → Option String
  | .str s => some s
  | .int n => some (toString n)
  | .bool b => some (if b then "True" else "False")
  | _ => none

/-- One keypath probe: the walked value, kept only when it is a str/int, as a
string. -/
def keypathHit (task : JVal) (kp : List String) : Option String :=
  (resolvePath task kp).bind strOrIntVal

/-- The first "/subscriptions/…" capture of `re.search(r"/subscriptions/([^/]+)", href)`
(line 150): scan left to right (overlapping starts included) for the literal
prefix followed by at least one non-slash character; the capture is the maximal
non-slash run. -/
def findSubscriptionsSeg : List Char → Option String
  | [] => none
  | c :: rest =>
    if "/subscriptions/".toList.isPrefixOf (c :: rest) then
      let captured := ((c :: rest).drop 15).takeWhile (fun ch => !(ch == '/'))
      if captured = [] then findSubscriptionsSeg rest
      else some (String.mk captured)
    else findSubscriptionsSeg rest

/-- The fallback loop over `task.get("links", [])` (lines 146-152): a link with
`rel` in {resource, subscription} and a truthy `href` is searched for a
subscription path segment; links without a match are skipped. -/
def linksLoop : List JVal → Except PyErr (Option String)
  | [] => .ok none
  | link :: rest =>
    match link with
    | .obj _ =>
      match pyOrChainLower [dictGet link "rel"] with
      | .error e => .error e
      | .ok rel =>
        match pyOr (dictGet link "href") (.str "") with
        | .str href =>
          if (rel = "resource" ∨ rel = "subscription") ∧ href ≠ "" then
            match findSubscriptionsSeg href.toList with
            | some subId => .ok (some subId)
            | none => linksLoop rest
          else linksLoop rest
        | _ =>
          -- a truthy non-string href reaches `re.search`, which raises TypeError
          if (rel = "resource" ∨ rel = "subscription") then .error .typeError
          else linksLoop rest
    | _ => .error .typeError

/-- The links fallback of lines 145-153, including the iteration-protocol
exceptions for a malformed `links` value (empty dict/str iterate to nothing;
any other non-list truthy value raises on iteration or on `link.get`). -/
def linksFallback (task : JVal) : Except PyErr (Option String) :=
  match task with
  | .obj _ =>
    match dictGetD task "links" (.arr []) with
    | .arr links => linksLoop links
    | .obj [] => .ok none
    | .str "" => .ok none
    | _ => .error .typeError
  | _ => .error .typeError

/-- `_extract_subscription_id_from_task` (lines 125-153): the first keypath
resolving to a str/int wins, in list order; only when every keypath misses is
the `links` fallback consulted. -/
def _extract_subscription_id_from_task (task : JVal) : Except PyErr (Option String) :=
  match subIdKeypaths.findSome? (keypathHit task) with
  | some s => .ok (some s)
  | none => linksFallback task

/-! ### `rest-api/create-db.py`, subscription creation and database loop
(lines 234-285) -/

/-- Outcome of `create_pro_subscription` in the model. -/
inductive SubCreate where
  | ok (subId : String)
  | err (e : PyErr)
  | running

/-- `create_pro_subscription` (lines 234-249) after the `POST /subscriptions`
call: `res` is the response body, and `taskResponses`/`elapsed`/`tmo`/`fuel`
drive the `wait_for_task` polling used when the response carries a task handle
(failure messages are abbreviated; no theorem depends on their text beyond the
two identifier-resolution errors). -/
def create_pro_subscription (res : JVal) (taskResponses : Nat → JVal)
    (elapsed : Nat → ℚ) (tmo : ℚ) (fuel : Nat) : SubCreate :=
  match res with
  | .obj _ =>
    match firstTruthyKey res ["subscriptionId", "id"] with
    | some v => .ok (pyStr v)
    | none =>
      match firstTruthyKey res ["taskId", "task_id"] with
      | none => .err (.systemExit "Subscription create returned no id or taskId")
      | some _ =>
        match wait_for_task taskResponses elapsed tmo 0 fuel with
        | .done task =>
          match _extract_subscription_id_from_task task with
          | .ok (some subId) =>
            -- line 247 re-checks truthiness (`if not sub_id:`), so an
            -- extracted EMPTY string is as fatal as no extraction at all
            if subId = "" then .err (.systemExit "Task completed but no subscription id found")
            else .ok subId
          | .ok none => .err (.systemExit "Task completed but no subscription id found")
          | .error e => .err e
        | .failed st => .err (.systemExit ("Task failed: " ++ st))
        | .timedOut st => .err (.systemExit ("Timeout waiting for task: " ++ st))
        | .exn e => .err e
        | .running => .running
  | _ => .err .typeError

/-- The identifier extraction of `create_database` (lines 254-257):
`res.get("databaseId") or res.get("id") or res.get("database_id")`, fatal when
all are falsy. -/
def dbIdFrom (res : JVal) : Except PyErr String :=
  match res with
  | .obj _ =>
    match firstTruthyKey res ["databaseId", "id", "database_id"] with
    | some v => .ok (pyStr v)
    | none => .error (.systemExit "Could not find database id in response")
  | _ => .error .typeError

/-- The `for db in dbs` loop of `main` (lines 279-284) with `create_database`
(lines 251-257) inlined so that the POST trace is visible: `post i payload` is
the outcome of the `POST /subscriptions/{sub_id}/databases` for the `i`-th
database (`.error` = non-2xx response, which `http_error` turns into a fatal
`SystemExit`).  The result is `(posts, created, err)`: the request bodies
actually POSTed with their indices, the database ids created so far in order,
and the error that halted the loop (`none` = all databases processed). -/
def createDbLoop (post : Nat → JVal → Except PyErr JVal) :
    Nat → List JVal → List (Nat × JVal) × List String × Option PyErr
  | _, [] => ([], [], none)
  | i, db :: rest =>
    match _normalize_db_from_input db with
    | .error e => ([], [], some e)
    | .ok payload =>
      match post i payload with
      | .error e => ([(i, payload)], [], some e)
      | .ok res =>
        match dbIdFrom res with
        | .error e => ([(i, payload)], [], some e)
        | .ok dbId =>
          match createDbLoop post (i + 1) rest with
          | (ps, ids, r) => ((i, payload) :: ps, dbId :: ids, r)

/-! ### `rest-api/create-db.py`, startup configuration (lines 14-36) -/

/-- How module import of create-db.py terminates (or proceeds). -/
inductive StartupOutcome where
  | typeError
  | valueError
  | missingEnvExit
  | ok (paymentMethodId : Int)
deriving DecidableEq

/-- Truthiness of an `os.getenv` result (unset or empty is falsy). -/
def envTruthy (v : Option String) : Bool :=
  match v with
  | some s => !(s == "")
  | none => false

/-- The module-level startup of create-db.py (lines 14-36):
`PAYMENT_METHOD_ID = int(os.getenv("REDIS_CLOUD_PAYMENT_METHOD_ID"))` runs at
line 21, BEFORE the `REQUIRED_ENV` presence check of lines 25-36, and
`REQUIRED_ENV` itself does not include the payment method id (the six-name
diagnostic of lines 28-34 lists it anyway). -/
def startup (getenv : String → Option String) : StartupOutcome :=
  match getenv "REDIS_CLOUD_PAYMENT_METHOD_ID" with
  | none => .typeError
  | some s =>
    match parseIntStr s with
    | none => .valueError
    | some pm =>
      if ([getenv "REDIS_CLOUD_ACCOUNT_KEY", getenv "REDIS_CLOUD_API_KEY",
           getenv "REDIS_CLOUD_ACCOUNT_ID", getenv "REDIS_CLOUD_PROVIDER",
           getenv "REDIS_CLOUD_REGION"].all envTruthy)
      then .ok pm
      else .missingEnvExit

/-! ### `input/re_stats_json.py`, expansion and creation plan (lines 58-133) -/

/-- One row of the cleaned working table `wf` (build_payloads lines 75-96):
rows with missing name/size or non-positive size have already been dropped, and
`dataset_size_in_gb` already carries the `round(prec)` of line 78.  `quantity`
is the integer of line 77 (a sheet can legitimately contain zero or negative
quantities; nothing drops them). -/
structure SizingRow where
  name : String
  quantity : Int
  size : ℚ
  ops : Int
  repl : Bool
  oss : Bool
  mods : List String
deriving DecidableEq

/-- One entry of the emitted `databases` array (lines 105-113). -/
structure DbPayload where
  name : String
  dataset_size_in_gb : ℚ
  replication : Bool
  throughput_measurement_by : String
  throughput_measurement_value : Int
  modules : List String
  support_oss_cluster_api : Bool
deriving DecidableEq

/-- One `creation_plan` entry (lines 118-127). -/
structure CreationPlanEntry where
  dataset_size_in_gb : ℚ
  quantity : Int
  replication : Bool
  throughput_measurement_by : String
  throughput_measurement_value : Int
deriving DecidableEq

/-- Round half to even at integer precision (pandas/Python rounding). -/
def roundHalfEvenInt (q : ℚ) : Int :=
  let f := ratFloor q
  let frac := q - (f : ℚ)
  if frac < 1/2 then f
  else if 1/2 < frac then f + 1
  else if f % 2 = 0 then f else f + 1

/-- `round(x, prec)` half-to-even at `prec` decimal places (exact-rational
model of the float rounding in lines 78, 107, 116, 120). -/
def roundPrec (q : ℚ) (prec : Nat) : ℚ :=
  (roundHalfEvenInt (q * (10 : ℚ) ^ prec) : ℚ) / (10 : ℚ) ^ prec

/-- The quantity expansion of one row (lines 99-113): `range(max(qty, 1))`
instances, suffixed `-1..-n` unless `qty == 1`. -/
def expandRow (prec : Nat) (r : SizingRow) : List DbPayload :=
  (List.range (max r.quantity 1).toNat).map fun i =>
    { name := if r.quantity = 1 then r.name else r.name ++ "-" ++ toString (i + 1)
      dataset_size_in_gb := roundPrec r.size prec
      replication := r.repl
      throughput_measurement_by := "operations-per-second"
      throughput_measurement_value := r.ops
      modules := r.mods
      support_oss_cluster_api := r.oss }

/-- The grouping key of line 117: `(size_key, replication, throughput)` with
`size_key = round(size, prec)` (line 116). -/
def planKey (prec : Nat) (r : SizingRow) : ℚ × Bool × Int :=
  (roundPrec r.size prec, r.repl, r.ops)

/-- Add a quantity to its group, creating the group when absent. -/
def addToGroups (key : ℚ × Bool × Int) (q : Int) :
    List ((ℚ × Bool × Int) × Int) → List ((ℚ × Bool × Int) × Int)
  | [] => [(key, q)]
  | (k, s) :: rest =>
    if k = key then (k, s + q) :: rest else (k, s) :: addToGroups key q rest

/-- The `groupby(["size_key","replication","throughput_ops_per_second"]).sum()`
of line 117: per-key sums of the raw `quantity` column.  (pandas emits the
groups sorted by key; this model keeps first-occurrence order, which affects
neither the multiset of entries nor any sum.) -/
def planGroups (prec : Nat) (rows : List SizingRow) : List ((ℚ × Bool × Int) × Int) :=
  rows.foldl (fun acc r => addToGroups (planKey prec r) r.quantity acc) []

/-- The `build_payloads` result (lines 98-133): the expanded `databases` array
and the aggregated `creation_plan` (the `skipped_rows` count concerns the
cleaning step, which is upstream of this model's input). -/
structure Payloads where
  databases : List DbPayload
  creation_plan : List CreationPlanEntry

/-- `build_payloads` (lines 58-133) on the cleaned working table. -/
def build_payloads (prec : Nat) (rows : List SizingRow) : Payloads :=
  { databases := (rows.map (expandRow prec)).flatten
    creation_plan := (planGroups prec rows).map fun kq =>
      { dataset_size_in_gb := roundPrec kq.1.1 prec
        quantity := kq.2
        replication := kq.1.2.1
        throughput_measurement_by := "operations-per-second"
        throughput_measurement_value := kq.1.2.2 } }

/-! ### Generic list lemmas -/

/-- `findSome?` returns the image of the first element on which `f` hits, when
every earlier element misses. -/
theorem findSome?_eq_of_first {α β : Type} (l : List α) (f : α → Option β) :
    ∀ (i : Nat) (hi : i < l.length) (v : β),
      (∀ j (hj : j < i), f (l.get ⟨j, Nat.lt_trans hj hi⟩) = none) →
      f (l.get ⟨i, hi⟩) = some v → l.findSome? f = some v := by
  induction l with
  | nil => intro i hi; exact absurd hi (by simp)
  | cons a l ih =>
    intro i hi v hmiss hhit
    cases i with
    | zero =>
      simp only [List.get] at hhit
      simp [List.findSome?, hhit]
    | succ i =>
      have h0 : f a = none := hmiss 0 (Nat.succ_pos i)
      simp only [List.findSome?, h0]
      exact ih i (Nat.lt_of_succ_lt_succ hi) v
        (fun j hj => hmiss (j + 1) (Nat.succ_lt_succ hj)) hhit

/-- `findSome?` misses when `f` misses everywhere. -/
theorem findSome?_eq_none_of_all {α β : Type} (l : List α) (f : α → Option β)
    (h : ∀ a ∈ l, f a = none) : l.findSome? f = none := by
  induction l with
  | nil => rfl
  | cons a l ih =>
    have ha : f a = none := h a (List.mem_cons_self a l)
    simp only [List.findSome?, ha]
    exact ih fun b hb => h b (List.mem_cons_of_mem a hb)

/-! ### C5 -/

/-- C5: normalizing a snake_case database entry preserves `name`,
`replication` and `support_oss_cluster_api` (as `supportOSSClusterApi`),
defaults the throughput value to 100 ops/sec when it is unset, and maps
`dataset_size_in_gb` to the integer ceiling of its numeric value with a floor
of 1. -/
theorem c5_normalize_preserves_fields
    (db : JVal) (fs : List (String × JVal)) (n : String) (b c : Bool) (q : ℚ)
    (hdb : db = JVal.obj fs)
    (hn : dictGet db "name" = some (.str n))
    (hb : dictGet db "replication" = some (.bool b))
    (hc : dictGet db "support_oss_cluster_api" = some (.bool c))
    (hq : dictGet db "dataset_size_in_gb" = some (.num q))
    (ht : dictGet db "throughput_measurement_value" = none) :
    ∃ p, _normalize_db_from_input db = .ok p ∧
      dictGet p "name" = some (.str n) ∧
      dictGet p "replication" = some (.bool b) ∧
      dictGet p "supportOSSClusterApi" = some (.bool c) ∧
      dictGet p "throughputMeasurementValue" = some (.int 100) ∧
      dictGet p "datasetSizeInGb" = some (.int (max 1 (ratCeil q))) := by
  subst hdb
  have hnorm : _normalize_db_from_input (JVal.obj fs) = .ok (JVal.obj
      [("name", .str n),
       ("protocol", dictGetD (JVal.obj fs) "protocol" (.str "redis")),
       ("datasetSizeInGb", .int (max 1 (ratCeil q))),
       ("replication", .bool b),
       ("throughputMeasurementBy",
         dictGetD (JVal.obj fs) "throughput_measurement_by" (.str "operations-per-second")),
       ("throughputMeasurementValue", .int 100),
       ("modules", modulesOf (JVal.obj fs)),
       ("supportOSSClusterApi", .bool c)]) := by
    simp [_normalize_db_from_input, dictGetD, hn, hb, hc, hq, ht, pyInt,
      _to_gb_int, pyFloat, truthy]
  exact ⟨_, hnorm, rfl, rfl, rfl, rfl, rfl⟩

/-- Concrete input for the C5 witness: dataset size 0.4 GB. -/
def dbSizePoint4 : JVal :=
  .obj [("name", .str "cacheA"), ("replication", .bool true),
        ("support_oss_cluster_api", .bool false), ("dataset_size_in_gb", .num (2/5))]

/-- Concrete input for the C5 witness: dataset size 2.1 GB. -/
def dbSizeTwoPointOne : JVal :=
  .obj [("name", .str "cacheB"), ("replication", .bool false),
        ("support_oss_cluster_api", .bool true), ("dataset_size_in_gb", .num (21/10))]

/-- C5 witness: 0.4 GB rounds up to 1 and 2.1 GB rounds up to 3, with the
other fields preserved. -/
theorem c5_normalize_preserves_fields_witness :
    (∃ p, _normalize_db_from_input dbSizePoint4 = .ok p ∧
      dictGet p "name" = some (.str "cacheA") ∧
      dictGet p "replication" = some (.bool true) ∧
      dictGet p "supportOSSClusterApi" = some (.bool false) ∧
      dictGet p "throughputMeasurementValue" = some (.int 100) ∧
      dictGet p "datasetSizeInGb" = some (.int 1)) ∧
    (∃ p, _normalize_db_from_input dbSizeTwoPointOne = .ok p ∧
      dictGet p "name" = some (.str "cacheB") ∧
      dictGet p "replication" = some (.bool false) ∧
      dictGet p "supportOSSClusterApi" = some (.bool true) ∧
      dictGet p "throughputMeasurementValue" = some (.int 100) ∧
      dictGet p "datasetSizeInGb" = some (.int 3)) :=
  ⟨c5_normalize_preserves_fields dbSizePoint4 _ "cacheA" true false (2/5)
      rfl rfl rfl rfl rfl rfl,
   c5_normalize_preserves_fields dbSizeTwoPointOne _ "cacheB" false true (21/10)
      rfl rfl rfl rfl rfl rfl⟩

/-! ### C10 -/

/-- C10 counterexample input: `modules` IS present (bound to JSON null) and
`modulexs` is also given. -/
def dbNullModules : JVal :=
  .obj [("modules", JVal.null), ("modulexs", JVal.arr [JVal.str "search"])]

/-- C10 counterexample: with `modules` present but null, the code does NOT
ignore `modulexs` — the normalized payload carries `["search"]` taken from
`modulexs`, not the present `modules` value (`db.get("modules")` returns
`None` for a null binding, so line 170's `is None` test also fires for
present-but-null). -/
theorem c10_modulexs_counterexample :
    (_normalize_db_from_input dbNullModules).map (fun p => dictGet p "modules")
      = .ok (some (JVal.arr [JVal.str "search"])) := rfl

/-- C10 as amended: `modulexs` is used exactly when `modules` is absent OR
bound to null; when `modules` is present with a non-null value, `modulexs` is
ignored. -/
theorem c10_modulexs_alias :
    (∀ (db : JVal) (fs : List (String × JVal)) (p : JVal),
      db = JVal.obj fs →
      (dictGet db "modules" = none ∨ dictGet db "modules" = some JVal.null) →
      _normalize_db_from_input db = .ok p →
      dictGet p "modules" = some (dictGetD db "modulexs" (JVal.arr []))) ∧
    (∀ (db : JVal) (fs : List (String × JVal)) (p v : JVal),
      db = JVal.obj fs →
      dictGet db "modules" = some v → v ≠ JVal.null →
      _normalize_db_from_input db = .ok p →
      dictGet p "modules" = some v) := by
  constructor
  · intro db fs p hdb hmod hp
    subst hdb
    rcases hpy : pyInt (dictGetD (JVal.obj fs) "throughput_measurement_value" (.int 100)) with e | tv
    · simp [_normalize_db_from_input, hpy] at hp
    · simp only [_normalize_db_from_input, hpy] at hp
      injection hp with hp
      rw [← hp]
      show some (modulesOf (JVal.obj fs)) = _
      rcases hmod with h | h <;> simp [modulesOf, h]
  · intro db fs p v hdb hv hvnull hp
    subst hdb
    rcases hpy : pyInt (dictGetD (JVal.obj fs) "throughput_measurement_value" (.int 100)) with e | tv
    · simp [_normalize_db_from_input, hpy] at hp
    · simp only [_normalize_db_from_input, hpy] at hp
      injection hp with hp
      rw [← hp]
      show some (modulesOf (JVal.obj fs)) = _
      cases v <;> simp_all [modulesOf]

/-- C10 witness input: `modules` absent, `modulexs` present. -/
def dbOnlyModulexs : JVal := .obj [("modulexs", JVal.arr [JVal.str "bloom"])]

/-- C10 witness input: both `modules` (non-null) and `modulexs` present. -/
def dbBothModules : JVal :=
  .obj [("modules", JVal.arr [JVal.str "json"]), ("modulexs", JVal.arr [JVal.str "x"])]

/-- C10 witness: the alias is taken when `modules` is absent, ignored when
`modules` carries a non-null value. -/
theorem c10_modulexs_alias_witness :
    (∃ p, _normalize_db_from_input dbOnlyModulexs = .ok p ∧
      dictGet p "modules" = some (JVal.arr [JVal.str "bloom"])) ∧
    (∃ p, _normalize_db_from_input dbBothModules = .ok p ∧
      dictGet p "modules" = some (JVal.arr [JVal.str "json"])) :=
  ⟨⟨_, rfl, c10_modulexs_alias.1 dbOnlyModulexs _ _ rfl (Or.inl rfl) rfl⟩,
   ⟨_, rfl, c10_modulexs_alias.2 dbBothModules _ _ (JVal.arr [JVal.str "json"]) rfl rfl
      (fun h => JVal.noConfusion h) rfl⟩⟩

/-! ### C3 -/

/-- C3: identifier extraction from a completed task probes the six keypaths in
exactly the listed priority order: the first keypath that resolves to a
str/int value wins (earlier misses required), and only when all six miss is
the `links`-array fallback consulted. -/
theorem c3_extract_priority_order :
    (∀ (task : JVal) (i : Nat) (hi : i < subIdKeypaths.length) (v : String),
      (∀ j (hj : j < i), keypathHit task (subIdKeypaths.get ⟨j, Nat.lt_trans hj hi⟩) = none) →
      keypathHit task (subIdKeypaths.get ⟨i, hi⟩) = some v →
      _extract_subscription_id_from_task task = .ok (some v)) ∧
    (∀ task : JVal,
      (∀ kp ∈ subIdKeypaths, keypathHit task kp = none) →
      _extract_subscription_id_from_task task = linksFallback task) := by
  constructor
  · intro task i hi v hmiss hhit
    have h := findSome?_eq_of_first subIdKeypaths (keypathHit task) i hi v hmiss hhit
    simp [_extract_subscription_id_from_task, h]
  · intro task hall
    have h := findSome?_eq_none_of_all subIdKeypaths (keypathHit task) hall
    simp [_extract_subscription_id_from_task, h]

/-- C3 witness input: both `result.subscriptionId` (priority 0) and the bare
`subscriptionId` (priority 2) are present with different values. -/
def taskTwoIds : JVal :=
  .obj [("result", .obj [("subscriptionId", .str "A")]), ("subscriptionId", .str "B")]

/-- C3 witness input: no keypath matches, only a resource link. -/
def taskOnlyLink : JVal :=
  .obj [("links", .arr [.obj [("rel", .str "Resource"), ("href", .str "/subscriptions/s9")]])]

/-- C3 witness: with two matching keypaths the earliest (`result.subscriptionId`)
wins, and with no matching keypath extraction equals the links fallback. -/
theorem c3_extract_priority_order_witness :
    _extract_subscription_id_from_task taskTwoIds = .ok (some "A") ∧
    _extract_subscription_id_from_task taskOnlyLink = linksFallback taskOnlyLink :=
  ⟨c3_extract_priority_order.1 taskTwoIds 0 (by decide) "A"
      (fun j hj => absurd hj (Nat.not_lt_zero j)) rfl,
   c3_extract_priority_order.2 taskOnlyLink (by decide)⟩

/-! ### C4 -/


/-- The `k`-th poll of the activation loop neither terminates nor times out:
the status is recognized as neither active- nor failure-equivalent and the
elapsed time is still within budget. -/
def keepsPolling (resp : Nat → JVal) (el : Nat → ℚ) (tmo : ℚ) (j : Nat) : Prop :=
  ∃ st, subStatus (resp j) = .ok st ∧
    st ∉ activeStatuses ∧ st ∉ subFailureStatuses ∧ ¬ tmo < el j

/-- Skipping lemma: while every poll keeps polling, the activation loop just
advances the poll index and consumes fuel. -/
theorem wait_sub_skip (resp : Nat → JVal) (el : Nat → ℚ) (tmo : ℚ) :
    ∀ (d k fuel : Nat), (∀ j, j < d → keepsPolling resp el tmo (k + j)) → d ≤ fuel →
      wait_for_subscription_active resp el tmo k fuel
        = wait_for_subscription_active resp el tmo (k + d) (fuel - d) := by
  intro d
  induction d with
  | zero => intro k fuel _ _; rfl
  | succ d ih =>
    intro k fuel hpoll hd
    obtain ⟨st, hst, hna, hnf, hnt⟩ := hpoll 0 (Nat.succ_pos d)
    have hnt' : ¬ tmo < el k := by simpa using hnt
    have hst' : subStatus (resp k) = .ok st := by simpa using hst
    rcases fuel with _ | fuel
    · exact absurd hd (by omega)
    · have step : wait_for_subscription_active resp el tmo k (fuel + 1)
          = wait_for_subscription_active resp el tmo (k + 1) fuel := by
        simp only [wait_for_subscription_active]
        simp [hst', hna, hnf, hnt']
      rw [step]
      have hshift : ∀ j, j < d → keepsPolling resp el tmo (k + 1 + j) := by
        intro j hj
        have := hpoll (j + 1) (by omega)
        rwa [show k + (j + 1) = k + 1 + j by omega] at this
      rw [ih (k + 1) fuel hshift (by omega)]
      congr 1 <;> omega

/-- C4: the activation loop returns the subscription at the first poll whose
(lowercased) status is in the fixed active-equivalent set, fails fatally at the
first poll whose status is in the fixed failure-equivalent set, fails fatally
when an unrecognized status is observed after the timeout budget is exceeded,
and keeps polling as long as statuses stay unrecognized within budget. -/
theorem c4_wait_for_subscription_active :
    (∀ (resp : Nat → JVal) (el : Nat → ℚ) (tmo : ℚ) (fuel k : Nat) (st : String) (sub : JVal),
      k < fuel →
      (∀ j, j < k → keepsPolling resp el tmo j) →
      resp k = sub → subStatus sub = .ok st → st ∈ activeStatuses →
      wait_for_subscription_active resp el tmo 0 fuel = .active sub) ∧
    (∀ (resp : Nat → JVal) (el : Nat → ℚ) (tmo : ℚ) (fuel k : Nat) (st : String),
      k < fuel →
      (∀ j, j < k → keepsPolling resp el tmo j) →
      subStatus (resp k) = .ok st →
      st ∉ activeStatuses → st ∈ subFailureStatuses →
      wait_for_subscription_active resp el tmo 0 fuel = .failure st) ∧
    (∀ (resp : Nat → JVal) (el : Nat → ℚ) (tmo : ℚ) (fuel k : Nat) (st : String),
      k < fuel →
      (∀ j, j < k → keepsPolling resp el tmo j) →
      subStatus (resp k) = .ok st →
      st ∉ activeStatuses → st ∉ subFailureStatuses →
      tmo < el k →
      wait_for_subscription_active resp el tmo 0 fuel = .timedOut st) ∧
    (∀ (resp : Nat → JVal) (el : Nat → ℚ) (tmo : ℚ) (fuel : Nat),
      (∀ j, j < fuel → keepsPolling resp el tmo j) →
      wait_for_subscription_active resp el tmo 0 fuel = .running) := by
  refine ⟨?_, ?_, ?_, ?_⟩
  · intro resp el tmo fuel k st sub hk hpoll hsub hst hact
    have hskip := wait_sub_skip resp el tmo k 0 fuel (by simpa using hpoll) (by omega)
    rw [Nat.zero_add] at hskip
    rcases hfk : fuel - k with _ | m
    · omega
    · rw [hfk] at hskip
      rw [hskip]
      subst hsub
      simp [wait_for_subscription_active, hst, hact]
  · intro resp el tmo fuel k st hk hpoll hst hact hfail
    have hskip := wait_sub_skip resp el tmo k 0 fuel (by simpa using hpoll) (by omega)
    rw [Nat.zero_add] at hskip
    rcases hfk : fuel - k with _ | m
    · omega
    · rw [hfk] at hskip
      rw [hskip]
      simp [wait_for_subscription_active, hst, hact, hfail]
  · intro resp el tmo fuel k st hk hpoll hst hact hfail ht
    have hskip := wait_sub_skip resp el tmo k 0 fuel (by simpa using hpoll) (by omega)
    rw [Nat.zero_add] at hskip
    rcases hfk : fuel - k with _ | m
    · omega
    · rw [hfk] at hskip
      rw [hskip]
      simp [wait_for_subscription_active, hst, hact, hfail, ht]
  · intro resp el tmo fuel hpoll
    have hskip := wait_sub_skip resp el tmo fuel 0 fuel (by simpa using hpoll) (by omega)
    rw [Nat.zero_add] at hskip
    rw [hskip]
    simp [wait_for_subscription_active]

/-- C4 witness responses: one unrecognized status, then `"Active"`
(exercising the lowercasing). -/
def subRespActive (k : Nat) : JVal :=
  if k = 0 then .obj [("status", .str "provisioning")] else .obj [("status", .str "Active")]

/-- C4 witness responses: an immediate failure status. -/
def subRespError (_ : Nat) : JVal := .obj [("status", .str "error")]

/-- C4 witness responses: a status that is never recognized. -/
def subRespPending (_ : Nat) : JVal := .obj [("status", .str "pending")]

/-- C4 witness elapsed times: 1000 seconds per poll (over the 900 budget from
the second check on). -/
def elapsedFast (k : Nat) : ℚ := 1000 * k

/-- C4 witness: activation on `"Active"` after one unrecognized poll, fatal
failure on `"error"` before any database call, and fatal timeout on a
never-recognized status once the budget is exceeded. -/
theorem c4_wait_for_subscription_active_witness :
    wait_for_subscription_active subRespActive (fun _ => 0) 900 0 3
        = .active (.obj [("status", .str "Active")]) ∧
    wait_for_subscription_active subRespError (fun _ => 0) 900 0 3
        = .failure "error" ∧
    wait_for_subscription_active subRespPending elapsedFast 900 0 3
        = .timedOut "pending" :=
  ⟨c4_wait_for_subscription_active.1 subRespActive (fun _ => 0) 900 3 1 "active"
      (.obj [("status", .str "Active")]) (by omega)
      (fun j hj => by
        have hj0 : j = 0 := by omega
        subst hj0
        exact ⟨"provisioning", rfl, by decide, by decide, by decide⟩)
      rfl rfl (by decide),
   c4_wait_for_subscription_active.2.1 subRespError (fun _ => 0) 900 3 0 "error"
      (by omega) (fun j hj => absurd hj (Nat.not_lt_zero j)) rfl (by decide) (by decide),
   c4_wait_for_subscription_active.2.2.1 subRespPending elapsedFast 900 3 1 "pending"
      (by omega)
      (fun j hj => by
        have hj0 : j = 0 := by omega
        subst hj0
        exact ⟨"pending", rfl, by decide, by decide, by decide⟩)
      rfl (by decide) (by decide) (by decide)⟩

/-! ### C2 -/

/-- C2: for every `POST /subscriptions` response body, a truthy subscription
identifier (`subscriptionId` checked before `id`) is returned directly; failing
that, a task handle (`taskId` checked before `task_id`)
defers resolution to task polling, whose successfully-completed task is fed to
the identifier extraction; with neither an identifier nor a task handle, or
with a successfully-completed task from which no identifier is resolvable —
the extraction yields nothing, or only the falsy empty string, which line
247's `if not sub_id:` re-check treats as unresolved — the operation fails
fatally. -/
theorem c2_create_subscription_resolution :
    (∀ (fs : List (String × JVal)) (tr : Nat → JVal) (el : Nat → ℚ) (tmo : ℚ)
        (fuel : Nat) (v : JVal),
      firstTruthyKey (.obj fs) ["subscriptionId", "id"] = some v →
      create_pro_subscription (.obj fs) tr el tmo fuel = .ok (pyStr v)) ∧
    (∀ (fs : List (String × JVal)) (tr : Nat → JVal) (el : Nat → ℚ) (tmo : ℚ)
        (fuel : Nat) (t task : JVal) (subId : String),
      firstTruthyKey (.obj fs) ["subscriptionId", "id"] = none →
      firstTruthyKey (.obj fs) ["taskId", "task_id"] = some t →
      wait_for_task tr el tmo 0 fuel = .done task →
      _extract_subscription_id_from_task task = .ok (some subId) →
      subId ≠ "" →
      create_pro_subscription (.obj fs) tr el tmo fuel = .ok subId) ∧
    (∀ (fs : List (String × JVal)) (tr : Nat → JVal) (el : Nat → ℚ) (tmo : ℚ)
        (fuel : Nat),
      firstTruthyKey (.obj fs) ["subscriptionId", "id"] = none →
      firstTruthyKey (.obj fs) ["taskId", "task_id"] = none →
      create_pro_subscription (.obj fs) tr el tmo fuel
        = .err (.systemExit "Subscription create returned no id or taskId")) ∧
    (∀ (fs : List (String × JVal)) (tr : Nat → JVal) (el : Nat → ℚ) (tmo : ℚ)
        (fuel : Nat) (t task : JVal),
      firstTruthyKey (.obj fs) ["subscriptionId", "id"] = none →
      firstTruthyKey (.obj fs) ["taskId", "task_id"] = some t →
      wait_for_task tr el tmo 0 fuel = .done task →
      (_extract_subscription_id_from_task task = .ok none ∨
        _extract_subscription_id_from_task task = .ok (some "")) →
      create_pro_subscription (.obj fs) tr el tmo fuel
        = .err (.systemExit "Task completed but no subscription id found")) := by
  refine ⟨?_, ?_, ?_, ?_⟩
  · intro fs tr el tmo fuel v hid
    simp [create_pro_subscription, hid]
  · intro fs tr el tmo fuel t task subId hid htask hwait hext hne
    simp [create_pro_subscription, hid, htask, hwait, hext, hne]
  · intro fs tr el tmo fuel hid htask
    simp [create_pro_subscription, hid, htask]
  · intro fs tr el tmo fuel t task hid htask hwait hext
    rcases hext with hext | hext <;>
      simp [create_pro_subscription, hid, htask, hwait, hext]

/-- C2 witness response: only a task handle. -/
def respTaskOnly : List (String × JVal) := [("taskId", .str "t1")]

/-- C2 witness task responses: one non-terminal poll, then a completed task
carrying `result.subscriptionId`. -/
def taskRespSub9 (k : Nat) : JVal :=
  if k = 0 then .obj [("status", .str "processing")]
  else .obj [("status", .str "completed"), ("result", .obj [("subscriptionId", .str "sub-9")])]

/-- C2 witness response: a direct identifier next to a task handle. -/
def respDirectId : List (String × JVal) := [("subscriptionId", .str "sub-1"), ("taskId", .str "t9")]

/-- C2 witness task responses: the task completes but its probed identifier
field holds the falsy empty string. -/
def taskRespEmptyId (k : Nat) : JVal :=
  if k = 0 then .obj [("status", .str "processing")]
  else .obj [("status", .str "completed"), ("subscriptionId", .str "")]

/-- C2 witness: a direct `subscriptionId` is returned without polling, a
task-only response is resolved to `sub-9` by polling the task (spec
end-to-end scenario 2), and a task completing with only an empty-string
identifier fails fatally as unresolved. -/
theorem c2_create_subscription_resolution_witness :
    create_pro_subscription (.obj respDirectId) taskRespSub9 (fun _ => 0) 900 5
        = .ok "sub-1" ∧
    create_pro_subscription (.obj respTaskOnly) taskRespSub9 (fun _ => 0) 900 5
        = .ok "sub-9" ∧
    create_pro_subscription (.obj respTaskOnly) taskRespEmptyId (fun _ => 0) 900 5
        = .err (.systemExit "Task completed but no subscription id found") :=
  ⟨c2_create_subscription_resolution.1 respDirectId taskRespSub9 (fun _ => 0) 900 5
      (.str "sub-1") rfl,
   c2_create_subscription_resolution.2.1 respTaskOnly taskRespSub9 (fun _ => 0) 900 5
      (.str "t1") (taskRespSub9 1) "sub-9" rfl rfl rfl rfl (by decide),
   c2_create_subscription_resolution.2.2.2 respTaskOnly taskRespEmptyId (fun _ => 0) 900 5
      (.str "t1") (taskRespEmptyId 1) rfl rfl rfl (Or.inr rfl)⟩

/-! ### C1 -/

/-- Offset-generalized halt lemma for the database-creation loop: with every
database before the failure point normalizing and POSTing successfully and the
one at the failure point drawing a non-2xx response, the loop posts exactly the
payloads up to and including the failure point, keeps the earlier ids, and
halts with the transport error — the databases after the failure point are
never touched. -/
theorem createDbLoop_halt_aux (post : Nat → JVal → Except PyErr JVal)
    (bad : JVal) (rest : List JVal) (pl : Nat → JVal) (ids : Nat → String) (e : PyErr) :
    ∀ (good : List JVal) (s : Nat),
      (∀ j (hj : j < good.length),
        _normalize_db_from_input (good.get ⟨j, hj⟩) = .ok (pl (s + j))) →
      (∀ j, j < good.length →
        post (s + j) (pl (s + j)) = .ok (.obj [("databaseId", .str (ids (s + j)))])) →
      (∀ j, j < good.length → ids (s + j) ≠ "") →
      _normalize_db_from_input bad = .ok (pl (s + good.length)) →
      post (s + good.length) (pl (s + good.length)) = .error e →
      createDbLoop post s (good ++ bad :: rest)
        = ((List.range (good.length + 1)).map (fun j => (s + j, pl (s + j))),
           (List.range good.length).map (fun j => ids (s + j)), some e) := by
  intro good
  induction good with
  | nil =>
    intro s hnorm hok hids hbn hfail
    simp only [List.length_nil, Nat.add_zero] at hbn hfail
    simp only [createDbLoop, hbn, hfail, List.length_nil]
    rw [show List.range (0 + 1) = [0] from rfl, show List.range 0 = [] from rfl]
    simp
  | cons g good ih =>
    intro s hnorm hok hids hbn hfail
    have hg : _normalize_db_from_input g = .ok (pl s) := by
      simpa using hnorm 0 (Nat.succ_pos _)
    have hpost0 : post s (pl s) = .ok (.obj [("databaseId", .str (ids s))]) := by
      simpa using hok 0 (Nat.succ_pos _)
    have hid0 : ids s ≠ "" := by simpa using hids 0 (Nat.succ_pos _)
    have hrec := ih (s + 1)
      (fun j hj => by
        have := hnorm (j + 1) (Nat.succ_lt_succ hj)
        rwa [show s + (j + 1) = s + 1 + j by omega] at this)
      (fun j hj => by
        have := hok (j + 1) (Nat.succ_lt_succ hj)
        rwa [show s + (j + 1) = s + 1 + j by omega] at this)
      (fun j hj => by
        have := hids (j + 1) (Nat.succ_lt_succ hj)
        rwa [show s + (j + 1) = s + 1 + j by omega] at this)
      (by rwa [show s + 1 + good.length = s + (good.length + 1) by omega])
      (by rwa [show s + 1 + good.length = s + (good.length + 1) by omega])
    have hdbid : dbIdFrom (.obj [("databaseId", .str (ids s))]) = .ok (ids s) := by
      simp [dbIdFrom, firstTruthyKey, dictGet, lookupField, truthy, pyStr, hid0]
    have h1 : (List.range (good.length + 1 + 1)).map (fun j => (s + j, pl (s + j)))
        = (s, pl s) :: (List.range (good.length + 1)).map
            (fun j => (s + 1 + j, pl (s + 1 + j))) := by
      rw [List.range_succ_eq_map, List.map_cons, List.map_map]
      refine congrArg₂ List.cons (by simp) ?_
      refine List.map_congr_left fun a _ => ?_
      show (s + (a + 1), pl (s + (a + 1))) = (s + 1 + a, pl (s + 1 + a))
      rw [show s + (a + 1) = s + 1 + a by omega]
    have h2 : (List.range (good.length + 1)).map (fun j => ids (s + j))
        = ids s :: (List.range good.length).map (fun j => ids (s + 1 + j)) := by
      rw [List.range_succ_eq_map, List.map_cons, List.map_map]
      refine congrArg₂ List.cons (by simp) ?_
      refine List.map_congr_left fun a _ => ?_
      show ids (s + (a + 1)) = ids (s + 1 + a)
      rw [show s + (a + 1) = s + 1 + a by omega]
    simp only [List.cons_append, createDbLoop, List.append_eq, hg, hpost0, hdbid,
      hrec, List.length_cons, h1, h2]

/-- C1: the database-creation phase of `main` invokes one creation call per
spec in input order, sequentially; when the creation of the database at
position `good.length` fails with a non-2xx response, the loop halts fatally
with that transport error, the databases before it remain created (their ids
are kept, no compensation), and the databases after it are never attempted
(the trace of POSTed payloads stops at the failing index and the conclusion is
independent of `rest` and of the oracle beyond the failing index). -/
theorem c1_sequential_db_creation_halt (post : Nat → JVal → Except PyErr JVal)
    (good : List JVal) (bad : JVal) (rest : List JVal)
    (pl : Nat → JVal) (ids : Nat → String) (e : PyErr)
    (hnorm : ∀ j (hj : j < good.length),
      _normalize_db_from_input (good.get ⟨j, hj⟩) = .ok (pl j))
    (hok : ∀ j, j < good.length →
      post j (pl j) = .ok (.obj [("databaseId", .str (ids j))]))
    (hids : ∀ j, j < good.length → ids j ≠ "")
    (hbn : _normalize_db_from_input bad = .ok (pl good.length))
    (hfail : post good.length (pl good.length) = .error e) :
    createDbLoop post 0 (good ++ bad :: rest)
      = ((List.range (good.length + 1)).map (fun j => (j, pl j)),
         (List.range good.length).map ids, some e) := by
  have h := createDbLoop_halt_aux post bad rest pl ids e good 0
    (by simpa using hnorm) (by simpa using hok) (by simpa using hids)
    (by simpa using hbn) (by simpa using hfail)
  simpa using h

/-- A minimal database spec used by the C1 witness. -/
def dbSimple : JVal := .obj [("name", .str "d")]

/-- The normalized payload of `dbSimple`. -/
def dbSimplePayload : JVal :=
  .obj [("name", .str "d"), ("protocol", .str "redis"), ("datasetSizeInGb", .int 1),
        ("replication", .bool false),
        ("throughputMeasurementBy", .str "operations-per-second"),
        ("throughputMeasurementValue", .int 100), ("modules", .arr []),
        ("supportOSSClusterApi", .bool false)]

/-- C1 witness oracle: the first database POST succeeds with id `"7"`, every
later POST returns a non-2xx response. -/
def postFailAt1 (j : Nat) (_ : JVal) : Except PyErr JVal :=
  if j = 0 then .ok (.obj [("databaseId", .str "7")])
  else .error (.systemExit "POST failed: HTTP 400")

/-- C1 witness: of three databases, the second POST fails with HTTP 400 — the
loop posts only indices 0 and 1, keeps the first created id, reports the
transport error, and never attempts the third database. -/
theorem c1_sequential_db_creation_halt_witness :
    createDbLoop postFailAt1 0 [dbSimple, dbSimple, dbSimple]
      = ([(0, dbSimplePayload), (1, dbSimplePayload)], ["7"],
         some (.systemExit "POST failed: HTTP 400")) :=
  c1_sequential_db_creation_halt postFailAt1 [dbSimple] dbSimple [dbSimple]
    (fun _ => dbSimplePayload) (fun _ => "7") (.systemExit "POST failed: HTTP 400")
    (fun j hj => by
      have hj0 : j = 0 := by simpa using Nat.lt_one_iff.mp (by simpa using hj)
      subst hj0; rfl)
    (fun j hj => by
      have hj0 : j = 0 := by simpa using Nat.lt_one_iff.mp (by simpa using hj)
      subst hj0; rfl)
    (fun j _ => by
      show "7" ≠ ""
      decide)
    rfl rfl

/-! ### C6 -/

/-- Inversion of the normalization loop on a cons cell. -/
theorem normalizeList_cons_inv {d : JVal} {l : List JVal} {nl : List JVal}
    (h : normalizeList (d :: l) = .ok nl) :
    ∃ nd nrest, _normalize_db_from_input d = .ok nd ∧
      normalizeList l = .ok nrest ∧ nl = nd :: nrest := by
  rcases hd : _normalize_db_from_input d with e | nd
  · simp [normalizeList, hd] at h
  · rcases hl : normalizeList l with e | nrest
    · simp [normalizeList, hd, hl] at h
    · refine ⟨nd, nrest, rfl, rfl, ?_⟩
      simp only [normalizeList, hd, hl] at h
      injection h with h
      exact h.symm

/-- All-successful run of the database-creation loop: the POSTed bodies are
exactly the normalized specs, indexed in input order. -/
theorem createDbLoop_ok_aux (post : Nat → JVal → Except PyErr JVal) (ids : Nat → String)
    (hpost : ∀ j payload, post j payload = .ok (.obj [("databaseId", .str (ids j))]))
    (hids : ∀ j, ids j ≠ "") :
    ∀ (l nl : List JVal) (s : Nat), normalizeList l = .ok nl →
      createDbLoop post s l
        = (((List.range nl.length).map (fun j => s + j)).zip nl,
           (List.range nl.length).map (fun j => ids (s + j)), none) := by
  intro l
  induction l with
  | nil =>
    intro nl s h
    have hnl : nl = [] := by
      simpa [normalizeList] using h.symm
    subst hnl
    simp [createDbLoop]
  | cons d l ih =>
    intro nl s h
    obtain ⟨nd, nrest, hd, hl, hnl⟩ := normalizeList_cons_inv h
    subst hnl
    have hdbid : dbIdFrom (.obj [("databaseId", .str (ids s))]) = .ok (ids s) := by
      simp [dbIdFrom, firstTruthyKey, dictGet, lookupField, truthy, pyStr, hids s]
    have h1 : (List.range (nrest.length + 1)).map (fun j => s + j)
        = s :: (List.range nrest.length).map (fun j => s + 1 + j) := by
      rw [List.range_succ_eq_map, List.map_cons, List.map_map]
      refine congrArg₂ List.cons (by simp) ?_
      refine List.map_congr_left fun a _ => ?_
      show s + (a + 1) = s + 1 + a
      omega
    have h2 : (List.range (nrest.length + 1)).map (fun j => ids (s + j))
        = ids s :: (List.range nrest.length).map (fun j => ids (s + 1 + j)) := by
      rw [List.range_succ_eq_map, List.map_cons, List.map_map]
      refine congrArg₂ List.cons (by simp) ?_
      refine List.map_congr_left fun a _ => ?_
      show ids (s + (a + 1)) = ids (s + 1 + a)
      rw [show s + (a + 1) = s + 1 + a by omega]
    simp only [createDbLoop, hd, hpost s nd, hdbid, ih nrest (s + 1) hl,
      List.length_cons, h1, h2, List.zip_cons_cons]

/-- C6: when the input payload carries a non-empty `databases` list, every
normalized database spec is submitted twice — once embedded inline in the
`databases` field of the `POST /subscriptions` payload, and once more as the
body of its own `POST /subscriptions/{id}/databases` call in the post-activation
loop of `main`. -/
theorem c6_databases_submitted_twice (cfg : Config) (spec : JVal)
    (fs : List (String × JVal)) (d : JVal) (ds nds : List JVal)
    (post : Nat → JVal → Except PyErr JVal) (ids : Nat → String)
    (hspec : spec = .obj fs)
    (hdbs : dictGet spec "databases" = some (.arr (d :: ds)))
    (hnorm : normalizeList (d :: ds) = .ok nds)
    (hpost : ∀ j payload, post j payload = .ok (.obj [("databaseId", .str (ids j))]))
    (hids : ∀ j, ids j ≠ "") :
    build_pro_subscription_payload cfg spec = .ok (build_payload_obj cfg nds) ∧
    dictGet (build_payload_obj cfg nds) "databases" = some (.arr nds) ∧
    (createDbLoop post 0 (d :: ds)).1.map Prod.snd = nds := by
  subst hspec
  obtain ⟨nd, nrest, hd, hl, hnl⟩ := normalizeList_cons_inv hnorm
  refine ⟨?_, ?_, ?_⟩
  · simp [build_pro_subscription_payload, _dbs_from_payload, pyOr, hdbs, truthy,
      hnorm, hnl]
  · rfl
  · rw [createDbLoop_ok_aux post ids hpost hids (d :: ds) nds 0 hnorm]
    have hlen : ((List.range nds.length).map (fun j => 0 + j)).length = nds.length := by
      simp
    simp [List.map_snd_zip, hlen.ge]

/-- C6 witness configuration. -/
def cfgTest : Config := ⟨"auto-sub", 8240, "AWS", "us-east-1", "10.0.1.0/24"⟩

/-- C6 witness input payload: two explicit databases, no subscription block. -/
def specTwoDbs : JVal := .obj [("databases", .arr [dbSimple, dbSimple])]

/-- C6 witness oracle: every database POST succeeds with id `"7"`. -/
def postAllOk7 (_ : Nat) (_ : JVal) : Except PyErr JVal :=
  .ok (.obj [("databaseId", .str "7")])

/-- C6 witness: both normalized specs appear in the subscription payload's
`databases` field AND are POSTed again one by one in the creation loop. -/
theorem c6_databases_submitted_twice_witness :
    build_pro_subscription_payload cfgTest specTwoDbs
        = .ok (build_payload_obj cfgTest [dbSimplePayload, dbSimplePayload]) ∧
    dictGet (build_payload_obj cfgTest [dbSimplePayload, dbSimplePayload]) "databases"
        = some (.arr [dbSimplePayload, dbSimplePayload]) ∧
    (createDbLoop postAllOk7 0 [dbSimple, dbSimple]).1.map Prod.snd
        = [dbSimplePayload, dbSimplePayload] :=
  c6_databases_submitted_twice cfgTest specTwoDbs _ dbSimple [dbSimple]
    [dbSimplePayload, dbSimplePayload] postAllOk7 (fun _ => "7")
    rfl rfl rfl (fun _ _ => rfl)
    (fun j => by
      show "7" ≠ ""
      decide)

/-! ### C7 -/

/-- C7 failing environment: every required variable is set and non-empty
EXCEPT the payment method id. -/
def envNoPayment (k : String) : Option String :=
  if k = "REDIS_CLOUD_PAYMENT_METHOD_ID" then none else some "x"

/-- C7 (code bug): with only `REDIS_CLOUD_PAYMENT_METHOD_ID` missing, startup
dies with an unhandled `TypeError` from `int(None)` at line 21 — BEFORE the
`REQUIRED_ENV` validation — and never prints the six-name diagnostic
(`sys.exit(1)` at line 36), even though that diagnostic lists the payment
method id as a required variable. -/
theorem c7_payment_id_not_validated :
    startup envNoPayment = .typeError ∧ startup envNoPayment ≠ .missingEnvExit :=
  ⟨rfl, by decide⟩

/-! ### C8 -/

/-- C8 counterexample input: a non-empty `databases` list and NO subscription
block at all. -/
def specNoSub : JVal := .obj [("databases", .arr [dbSimple])]

/-- C8 counterexample: with the subscription block absent but a non-empty
`databases` list, the workflow does NOT fail — payload building succeeds and
the workflow proceeds to `POST /subscriptions`, refuting the claim that an
absent subscription block is terminal. -/
theorem c8_counterexample_proceeds_without_subscription :
    ∃ p, build_pro_subscription_payload cfgTest specNoSub = .ok p := ⟨_, rfl⟩

/-- C8 as amended: with the subscription block absent, the workflow fails
before requesting a subscription exactly when the `databases` list is also
absent or empty (nothing is specified or derivable); when `databases` is
non-empty (and normalizes), it proceeds to build the subscription request
despite the absent subscription block. -/
theorem c8_idle_failure_requires_no_databases (cfg : Config) :
    (∀ fs : List (String × JVal),
      lookupField fs "subscription" = none →
      (lookupField fs "databases" = none ∨ lookupField fs "databases" = some (JVal.arr [])) →
      build_pro_subscription_payload cfg (.obj fs)
        = .error (.systemExit "No databases specified or derivable from creation_plan")) ∧
    (∀ (fs : List (String × JVal)) (d : JVal) (ds nds : List JVal),
      lookupField fs "subscription" = none →
      lookupField fs "databases" = some (.arr (d :: ds)) →
      normalizeList (d :: ds) = .ok nds →
      build_pro_subscription_payload cfg (.obj fs) = .ok (build_payload_obj cfg nds)) := by
  constructor
  · intro fs hsub hdb
    rcases hdb with h | h <;>
      simp [build_pro_subscription_payload, _dbs_from_payload, dictGet, pyOr, h,
        hsub, truthy, synthLoop, lookupField]
  · intro fs d ds nds _hsub hdbs hnorm
    obtain ⟨nd, nrest, hd, hl, hnl⟩ := normalizeList_cons_inv hnorm
    simp [build_pro_subscription_payload, _dbs_from_payload, dictGet, pyOr, hdbs,
      truthy, hnorm, hnl]

/-- C8 witness input with neither databases nor a subscription block. -/
def specEmpty : JVal := .obj [("name", .str "x")]

/-- C8 witness: the empty input fails with the no-databases error, while a
databases-only input (no subscription block) builds its payload. -/
theorem c8_idle_failure_requires_no_databases_witness :
    build_pro_subscription_payload cfgTest specEmpty
        = .error (.systemExit "No databases specified or derivable from creation_plan") ∧
    build_pro_subscription_payload cfgTest specNoSub
        = .ok (build_payload_obj cfgTest [dbSimplePayload]) :=
  ⟨(c8_idle_failure_requires_no_databases cfgTest).1 [("name", .str "x")] rfl (Or.inl rfl),
   (c8_idle_failure_requires_no_databases cfgTest).2 [("databases", .arr [dbSimple])]
      dbSimple [] [dbSimplePayload] rfl rfl rfl⟩

/-! ### C9 -/

/-- Adding a quantity to its group adds it to the total. -/
theorem addToGroups_sum (key : ℚ × Bool × Int) (q : Int) :
    ∀ acc : List ((ℚ × Bool × Int) × Int),
      ((addToGroups key q acc).map Prod.snd).sum = q + (acc.map Prod.snd).sum := by
  intro acc
  induction acc with
  | nil => simp [addToGroups]
  | cons kv rest ih =>
    rcases kv with ⟨k, s⟩
    by_cases hk : k = key
    · simp [addToGroups, hk]
      ring
    · simp [addToGroups, hk, ih]
      ring

/-- Grouping preserves the total quantity, whatever the accumulator. -/
theorem planGroups_sum_aux (prec : Nat) :
    ∀ (rows : List SizingRow) (acc : List ((ℚ × Bool × Int) × Int)),
      (((rows.foldl (fun acc r => addToGroups (planKey prec r) r.quantity acc) acc)).map
          Prod.snd).sum
        = (acc.map Prod.snd).sum + (rows.map SizingRow.quantity).sum := by
  intro rows
  induction rows with
  | nil => intro acc; simp
  | cons r rows ih =>
    intro acc
    simp only [List.foldl_cons, List.map_cons, List.sum_cons]
    rw [ih, addToGroups_sum]
    ring

/-- C9 counterexample row: a quantity of zero (nothing upstream drops it). -/
def rowQtyZero : SizingRow := ⟨"db", 0, 1, 0, false, false, []⟩

/-- C9 counterexample: with one cleaned row of quantity 0, the expanded
`databases` list has one entry (`range(max(0, 1))`) but the creation plan's
quantities sum to 0 (`groupby(...)["quantity"].sum()` sums the raw column), so
the conservation law fails. -/
theorem c9_conservation_counterexample :
    ¬ ((((build_payloads 3 [rowQtyZero]).creation_plan).map
          CreationPlanEntry.quantity).sum
        = ((build_payloads 3 [rowQtyZero]).databases.length : Int)) := by decide

/-- C9 as amended: when every cleaned row's quantity is at least 1, summing
`quantity` across all creation-plan entries equals the number of expanded
database specs in the `databases` list (conservation law).  (Rows with
quantity ≤ 0 break it: they expand to one database but contribute their raw
quantity to the plan.) -/
theorem c9_plan_quantity_conservation (prec : Nat) (rows : List SizingRow)
    (hq : ∀ r ∈ rows, 1 ≤ r.quantity) :
    (((build_payloads prec rows).creation_plan).map CreationPlanEntry.quantity).sum
      = ((build_payloads prec rows).databases.length : Int) := by
  have hplan : (((build_payloads prec rows).creation_plan).map
      CreationPlanEntry.quantity).sum = (rows.map SizingRow.quantity).sum := by
    show (((planGroups prec rows).map _).map CreationPlanEntry.quantity).sum = _
    rw [List.map_map]
    have : (CreationPlanEntry.quantity ∘ fun kq : (ℚ × Bool × Int) × Int =>
        ({ dataset_size_in_gb := roundPrec kq.1.1 prec, quantity := kq.2,
           replication := kq.1.2.1,
           throughput_measurement_by := "operations-per-second",
           throughput_measurement_value := kq.1.2.2 } : CreationPlanEntry))
        = Prod.snd := rfl
    rw [this]
    have := planGroups_sum_aux prec rows []
    simpa [planGroups] using this
  have hdbs : ((build_payloads prec rows).databases.length : Int)
      = (rows.map SizingRow.quantity).sum := by
    show (((rows.map (expandRow prec)).flatten.length : Nat) : Int) = _
    rw [List.length_flatten, List.map_map]
    have hcomp : (List.length ∘ expandRow prec)
        = fun r : SizingRow => (max r.quantity 1).toNat := by
      funext r
      simp [expandRow]
    rw [hcomp, Nat.cast_list_sum, List.map_map]
    refine congrArg List.sum (List.map_congr_left fun r hr => ?_)
    show (((max r.quantity 1).toNat : Nat) : Int) = r.quantity
    rw [max_eq_left (hq r hr), Int.toNat_of_nonneg (by linarith [hq r hr])]
  rw [hplan, hdbs]

/-- C9 witness rows: quantities 2 and 1 sharing one grouping key. -/
def rowsConserved : List SizingRow :=
  [⟨"a", 2, 5/2, 1000, true, false, []⟩, ⟨"b", 1, 5/2, 1000, true, false, []⟩]

/-- C9 witness: 2 + 1 plan quantity equals the 3 expanded database specs. -/
theorem c9_plan_quantity_conservation_witness :
    (((build_payloads 3 rowsConserved).creation_plan).map
        CreationPlanEntry.quantity).sum
      = ((build_payloads 3 rowsConserved).databases.length : Int) :=
  c9_plan_quantity_conservation 3 rowsConserved (by decide)
